import Mathlib

/-!
Verification of the confidential perpetual-DEX ledger.

This file gives a shallow embedding of the two Solidity contracts in
`src/contracts/ConfidentialPerpDEXMock.sol`:

* `ConfidentialPerpDEX` (the FHE contract): every `euint64` value is
  modelled as a `Nat` together with explicit reduction modulo `2^64`
  (the operations `add64`, `sub64`, `mul64`, `div64`, `lt64` mirror
  `TFHE.add/sub/mul/div/lt`).  Contract storage is a `State` record,
  `msg.sender` / `block.timestamp` are explicit parameters, a `require`
  failure is `Except.error` (the caller's state is untouched, matching
  the EVM's revert semantics), and events are accumulated in a list.
  `keccak256(abi.encodePacked(owner, timestamp, size))` is modelled by
  the injective triple `(owner, timestamp, size)` itself.

* `ConfidentialPerpDEXMock` (the plaintext mock): only the liquidation
  chain (`calculatePnL`, `checkLiquidation`, `liquidate`) is embedded,
  with `uint256` arithmetic reduced modulo `2^256`.

The error constructors follow the contract's `require` strings:
`positionNotOpen` is "Position not open" (the spec's `InvalidStateError`),
`onlyAdmin` is "Only admin" (the spec's `UnauthorizedError`), and
`notLiquidatable` is the mock's "Position not liquidatable".
-/

/-- The `euint64` modulus. -/
def M64 : Nat := 2 ^ 64

/-- The `uint256` modulus, for the mock contract. -/
def M256 : Nat := 2 ^ 256

/-- `TFHE.add` on `euint64`. -/
def add64 (a b : Nat) : Nat := (a + b) % M64

/-- `TFHE.sub` on `euint64` (wrap-around subtraction). -/
def sub64 (a b : Nat) : Nat := (a % M64 + (M64 - b % M64)) % M64

/-- `TFHE.mul` on `euint64`. -/
def mul64 (a b : Nat) : Nat := (a * b) % M64

/-- `TFHE.div` of an `euint64` by a plaintext divisor. -/
def div64 (a d : Nat) : Nat := (a % M64) / d

/-- `TFHE.lt` on `euint64`; the `ebool` result is a plaintext `Bool`
in the model (its confidentiality is a meta-level property). -/
def lt64 (a b : Nat) : Bool := decide (a % M64 < b % M64)

/-- Revert reasons of the contracts, named after the `require` strings. -/
inductive DexError where
  | positionNotOpen
  | onlyAdmin
  | notLiquidatable
  deriving DecidableEq, Repr

/-- Events emitted by the contracts. -/
inductive Event where
  | balanceDeposited (user amount : Nat)
  | positionOpened (trader : Nat) (pid : Nat × Nat × Nat) (isLong : Bool)
  | positionClosed (trader : Nat) (pid : Nat × Nat × Nat)
  | stopLossTakeProfitUpdated (trader : Nat) (pid : Nat × Nat × Nat)
  | orderPlaced (trader orderId : Nat) (isLong : Bool)
  | orderMatched (orderId1 orderId2 : Nat)
  | liquidationTriggered (trader : Nat) (pid : Nat × Nat × Nat)
  | priceUpdated (timestamp : Nat)
  deriving DecidableEq, Repr

/-- Position id: stand-in for `keccak256(abi.encodePacked(msg.sender,
block.timestamp, size))` — the hashed triple itself. -/
abbrev PosId := Nat × Nat × Nat

/-- `EncryptedPosition` of `ConfidentialPerpDEX`. -/
structure Position where
  size : Nat
  entryPrice : Nat
  collateral : Nat
  leverage : Nat
  isLong : Bool
  timestamp : Nat
  isOpen : Bool
  stopLoss : Nat
  takeProfit : Nat
  deriving DecidableEq, Repr

/-- `EncryptedOrder` of `ConfidentialPerpDEX`. -/
structure Order where
  price : Nat
  size : Nat
  trader : Nat
  isLong : Bool
  isFilled : Bool
  timestamp : Nat
  deriving DecidableEq, Repr

/-- The zero value of a Solidity `EncryptedPosition` storage slot. -/
def Position.zero : Position :=
  { size := 0, entryPrice := 0, collateral := 0, leverage := 0, isLong := false,
    timestamp := 0, isOpen := false, stopLoss := 0, takeProfit := 0 }

/-- The zero value of an `EncryptedOrder`. -/
def Order.zero : Order :=
  { price := 0, size := 0, trader := 0, isLong := false, isFilled := false, timestamp := 0 }

/-- Storage of `ConfidentialPerpDEX`.  Addresses are `Nat`. -/
structure State where
  balances : Nat → Nat
  positions : Nat → PosId → Position
  orderBook : List Order
  oraclePrice : Nat
  liquidationThreshold : Nat
  fundingRate : Nat
  admin : Nat
  events : List Event

/-- Point update of a balances map. -/
def updFun (f : Nat → Nat) (k v : Nat) : Nat → Nat :=
  fun x => if x = k then v else f x

/-- Point update of the positions double map. -/
def setPos (f : Nat → PosId → Position) (a : Nat) (i : PosId) (p : Position) :
    Nat → PosId → Position :=
  fun a' i' => if a' = a ∧ i' = i then p else f a' i'

/-- `orderBook[i]`; out-of-range reads (never reached by the contract)
return the zero order. -/
def getO (l : List Order) (i : Nat) : Order := (l.get? i).getD Order.zero

/-- The `constructor()` state: threshold 500 bps, funding rate 10,
oracle price 50000·100. -/
def initialState (deployer : Nat) : State :=
  { balances := fun _ => 0, positions := fun _ _ => Position.zero, orderBook := [],
    oraclePrice := 50000 * 100, liquidationThreshold := 500, fundingRate := 10,
    admin := deployer, events := [] }

/-- `deposit`: `balances[msg.sender] = TFHE.add(balance, amount)`
(the uninitialized case coincides with adding to 0); emits
`BalanceDeposited(msg.sender, 0)`.  No failure path. -/
def deposit (sender amount : Nat) (st : State) : State :=
  { st with
    balances := updFun st.balances sender (add64 (st.balances sender) (amount % M64)),
    events := Event.balanceDeposited sender 0 :: st.events }

/-- `openPosition` of `ConfidentialPerpDEX`: positionValue = size·price,
requiredCollateral = positionValue / leverage, unconditional debit of the
caller's balance (no balance check in the FHE contract), stores the new
open position, returns its id. -/
def openPosition (sender ts size lev : Nat) (isLong : Bool) (stopLoss takeProfit : Nat)
    (st : State) : Except DexError (PosId × State) :=
  let size' := size % M64
  let sl := stopLoss % M64
  let tp := takeProfit % M64
  let lev' := lev % 256
  let positionValue := mul64 size' st.oraclePrice
  let requiredCollateral := div64 positionValue lev'
  let pid : PosId := (sender, ts, size')
  let pos : Position :=
    { size := size', entryPrice := st.oraclePrice, collateral := requiredCollateral,
      leverage := lev', isLong := isLong, timestamp := ts, isOpen := true,
      stopLoss := sl, takeProfit := tp }
  Except.ok (pid, { st with
    balances := updFun st.balances sender (sub64 (st.balances sender) requiredCollateral),
    positions := setPos st.positions sender pid pos,
    events := Event.positionOpened sender pid isLong :: st.events })

/-- `calculatePnL`: a `view` function — it takes the state and returns
only a value, so it can mutate nothing.  priceDiff is the wrap-around
`euint64` difference oracle−entry (long) or entry−oracle (short),
multiplied by the size. -/
def calculatePnL (trader : Nat) (pid : PosId) (st : State) : Except DexError Nat :=
  let pos := st.positions trader pid
  if pos.isOpen then
    let priceDiff :=
      if pos.isLong then sub64 st.oraclePrice pos.entryPrice
      else sub64 pos.entryPrice st.oraclePrice
    Except.ok (mul64 priceDiff pos.size)
  else Except.error DexError.positionNotOpen

/-- `closePosition`: requires `isOpen`, credits collateral + pnl to the
caller (the position, being keyed by `msg.sender`, belongs to the caller),
closes it, emits `PositionClosed`. -/
def closePosition (sender : Nat) (pid : PosId) (st : State) :
    Except DexError (Unit × State) :=
  let pos := st.positions sender pid
  if pos.isOpen then
    match calculatePnL sender pid st with
    | Except.error e => Except.error e
    | Except.ok pnl =>
      let returnAmount := add64 pos.collateral pnl
      Except.ok ((), { st with
        balances := updFun st.balances sender (add64 (st.balances sender) returnAmount),
        positions := setPos st.positions sender pid { pos with isOpen := false },
        events := Event.positionClosed sender pid :: st.events })
  else Except.error DexError.positionNotOpen

/-- `updateStopLossTakeProfit`: requires the caller's own position at
this id to be open (positions are keyed by `msg.sender`; there is no
separate owner check and no unauthorized error on this path), overwrites
the brackets, emits `StopLossTakeProfitUpdated`. -/
def updateStopLossTakeProfit (sender : Nat) (pid : PosId) (stopLoss takeProfit : Nat)
    (st : State) : Except DexError (Unit × State) :=
  let pos := st.positions sender pid
  if pos.isOpen then
    Except.ok ((), { st with
      positions := setPos st.positions sender pid
        { pos with stopLoss := stopLoss % M64, takeProfit := takeProfit % M64 },
      events := Event.stopLossTakeProfitUpdated sender pid :: st.events })
  else Except.error DexError.positionNotOpen

/-- `checkStopLossTakeProfit`: `view`; for long, SL iff oracle < stopLoss
and TP iff oracle > takeProfit; inverted for short. -/
def checkStopLossTakeProfit (trader : Nat) (pid : PosId) (st : State) :
    Except DexError (Bool × Bool) :=
  let pos := st.positions trader pid
  if pos.isOpen then
    let slTriggered :=
      if pos.isLong then lt64 st.oraclePrice pos.stopLoss
      else lt64 pos.stopLoss st.oraclePrice
    let tpTriggered :=
      if pos.isLong then lt64 pos.takeProfit st.oraclePrice
      else lt64 st.oraclePrice pos.takeProfit
    Except.ok (slTriggered, tpTriggered)
  else Except.error DexError.positionNotOpen

/-- `executeStopLossTakeProfit`: callable by anyone; computes the two
trigger `ebool`s (whose values cannot and do not gate anything), then
unconditionally credits collateral + pnl to the trader, closes the
position and emits the generic `PositionClosed`.  The caller receives
nothing. -/
def executeStopLossTakeProfit (caller trader : Nat) (pid : PosId) (st : State) :
    Except DexError (Unit × State) :=
  let pos := st.positions trader pid
  if pos.isOpen then
    match checkStopLossTakeProfit trader pid st with
    | Except.error e => Except.error e
    | Except.ok _triggers =>
      match calculatePnL trader pid st with
      | Except.error e => Except.error e
      | Except.ok pnl =>
        let returnAmount := add64 pos.collateral pnl
        Except.ok ((), { st with
          balances := updFun st.balances trader (add64 (st.balances trader) returnAmount),
          positions := setPos st.positions trader pid { pos with isOpen := false },
          events := Event.positionClosed trader pid :: st.events })
  else Except.error DexError.positionNotOpen

/-- `checkLiquidation`: `view`; liquidatable iff
(collateral + pnl)·10000 < (size·price)·threshold, in `euint64`. -/
def checkLiquidation (trader : Nat) (pid : PosId) (st : State) :
    Except DexError Bool :=
  let pos := st.positions trader pid
  if pos.isOpen then
    let positionValue := mul64 pos.size st.oraclePrice
    match calculatePnL trader pid st with
    | Except.error e => Except.error e
    | Except.ok pnl =>
      let netValue := add64 pos.collateral pnl
      let netValueScaled := mul64 netValue (10000 % M64)
      let thresholdValue := mul64 positionValue st.liquidationThreshold
      Except.ok (lt64 netValueScaled thresholdValue)
  else Except.error DexError.positionNotOpen

/-- `liquidate` of `ConfidentialPerpDEX`: requires only `isOpen` — the
liquidatability predicate is neither computed nor checked (the contract
comments this as a production gap).  Closes the position and credits the
caller collateral/10; the owner receives nothing. -/
def liquidate (caller trader : Nat) (pid : PosId) (st : State) :
    Except DexError (Unit × State) :=
  let pos := st.positions trader pid
  if pos.isOpen then
    let liquidationReward := div64 pos.collateral 10
    Except.ok ((), { st with
      positions := setPos st.positions trader pid { pos with isOpen := false },
      balances := updFun st.balances caller (add64 (st.balances caller) liquidationReward),
      events := Event.liquidationTriggered trader pid :: st.events })
  else Except.error DexError.positionNotOpen

/-- The match step of `_matchOrders`: mark both orders filled and emit
`OrderMatched(newOrderId, i)`. -/
def fillMatch (newId i : Nat) (st : State) : State :=
  let newO := getO st.orderBook newId
  let ex := getO st.orderBook i
  { st with
    orderBook := (st.orderBook.set i { ex with isFilled := true }).set newId
      { newO with isFilled := true },
    events := Event.orderMatched newId i :: st.events }

/-- The loop body of `_matchOrders` over a list of candidate indices:
skip the new order itself, same-side orders and filled orders; at the
first remaining index compute the `canMatch` ebool (which cannot gate
anything and is unused), fill both orders and break. -/
def matchScan (newId : Nat) : List Nat → State → State
  | [], st => st
  | i :: rest, st =>
    if i = newId then matchScan newId rest st
    else
      let newO := getO st.orderBook newId
      let ex := getO st.orderBook i
      if ex.isLong == newO.isLong then matchScan newId rest st
      else if ex.isFilled || newO.isFilled then matchScan newId rest st
      else
        let _canMatch : Bool :=
          if newO.isLong then ! lt64 newO.price ex.price else ! lt64 ex.price newO.price
        fillMatch newId i st

/-- `[s, s+1, …, s+len-1]`: the index sequence of the `for` loop. -/
def idxs : Nat → Nat → List Nat
  | _, 0 => []
  | s, Nat.succ len => s :: idxs (s + 1) len

/-- `_matchOrders(newOrderId)`: scan indices `0 … orderBook.length-1`. -/
def matchOrders (newId : Nat) (st : State) : State :=
  matchScan newId (idxs 0 st.orderBook.length) st

/-- `placeOrder`: append a fresh unfilled order, emit `OrderPlaced`,
run the matching pass, return the order id (= old length). -/
def placeOrder (sender ts price size : Nat) (isLong : Bool) (st : State) :
    Except DexError (Nat × State) :=
  let price' := price % M64
  let size' := size % M64
  let order : Order :=
    { price := price', size := size', trader := sender, isLong := isLong,
      isFilled := false, timestamp := ts }
  let ob := st.orderBook ++ [order]
  let orderId := ob.length - 1
  let st1 := { st with
    orderBook := ob,
    events := Event.orderPlaced sender orderId isLong :: st.events }
  Except.ok (orderId, matchOrders orderId st1)

/-- `updateOraclePrice`: admin-only (`require(msg.sender == admin)`). -/
def updateOraclePrice (sender price ts : Nat) (st : State) :
    Except DexError (Unit × State) :=
  if sender = st.admin then
    Except.ok ((), { st with
      oraclePrice := price % M64,
      events := Event.priceUpdated ts :: st.events })
  else Except.error DexError.onlyAdmin

/-- `getOrderBookSize`. -/
def getOrderBookSize (st : State) : Nat := st.orderBook.length

/-- `getBalance`. -/
def getBalance (sender : Nat) (st : State) : Nat := st.balances sender

/-- `getOraclePrice`. -/
def getOraclePrice (st : State) : Nat := st.oraclePrice

/-- `Position` of `ConfidentialPerpDEXMock` (no bracket fields). -/
structure MockPosition where
  size : Nat
  entryPrice : Nat
  collateral : Nat
  leverage : Nat
  isLong : Bool
  timestamp : Nat
  isOpen : Bool
  deriving DecidableEq, Repr

/-- Zero storage slot of a mock position. -/
def MockPosition.zero : MockPosition :=
  { size := 0, entryPrice := 0, collateral := 0, leverage := 0, isLong := false,
    timestamp := 0, isOpen := false }

/-- The part of the mock contract's storage used by its liquidation chain. -/
structure MockState where
  balances : Nat → Nat
  positions : Nat → PosId → MockPosition
  oraclePrice : Nat
  liquidationThreshold : Nat
  events : List Event

/-- Mock `calculatePnL`: the price difference is clamped at 0 (the mock
has no negative PnL); `uint256` multiplication wraps modulo `2^256`. -/
def mockCalculatePnL (trader : Nat) (pid : PosId) (st : MockState) :
    Except DexError Nat :=
  let pos := st.positions trader pid
  if pos.isOpen then
    let priceDiff :=
      if pos.isLong then
        (if st.oraclePrice > pos.entryPrice then st.oraclePrice - pos.entryPrice else 0)
      else
        (if pos.entryPrice > st.oraclePrice then pos.entryPrice - st.oraclePrice else 0)
    Except.ok (priceDiff * pos.size % M256)
  else Except.error DexError.positionNotOpen

/-- Mock `checkLiquidation`: liquidatable iff
(collateral + pnl)·10000 < (size·price)·threshold over `uint256`. -/
def mockCheckLiquidation (trader : Nat) (pid : PosId) (st : MockState) :
    Except DexError Bool :=
  let pos := st.positions trader pid
  if pos.isOpen then
    let positionValue := pos.size * st.oraclePrice % M256
    match mockCalculatePnL trader pid st with
    | Except.error e => Except.error e
    | Except.ok pnl =>
      let netValue := (pos.collateral + pnl) % M256
      let netValueScaled := netValue * 10000 % M256
      let thresholdValue := positionValue * st.liquidationThreshold % M256
      Except.ok (decide (netValueScaled < thresholdValue))
  else Except.error DexError.positionNotOpen

/-- Mock `liquidate`: unlike the FHE contract, it computes
`checkLiquidation` and reverts with "Position not liquidatable" when the
predicate is false; otherwise closes the position and credits the caller
collateral/10. -/
def mockLiquidate (caller trader : Nat) (pid : PosId) (st : MockState) :
    Except DexError (Unit × MockState) :=
  let pos := st.positions trader pid
  if pos.isOpen then
    match mockCheckLiquidation trader pid st with
    | Except.error e => Except.error e
    | Except.ok isLiquidatable =>
      if isLiquidatable then
        let liquidationReward := pos.collateral / 10
        Except.ok ((), { st with
          positions := fun a i =>
            if a = trader ∧ i = pid then { pos with isOpen := false } else st.positions a i,
          balances := updFun st.balances caller
            ((st.balances caller + liquidationReward) % M256),
          events := Event.liquidationTriggered trader pid :: st.events })
      else Except.error DexError.notLiquidatable
  else Except.error DexError.positionNotOpen

/-- Extract the post-state of a successful operation (the fallback state
is never used on the concrete traces below, all of which succeed). -/
def stepState {α : Type} (r : Except DexError (α × State)) (dflt : State) : State :=
  match r with
  | Except.ok (_, s) => s
  | Except.error _ => dflt

/-- Scenario A/B trace — deployer is address 0, the trader (alice) is
address 1, a third party (bob) is address 2.  The admin first moves the
oracle price to 100. -/
def stA0 : State := initialState 0

/-- After `updateOraclePrice(100)` by the admin. -/
def stA1 : State := stepState (updateOraclePrice 0 100 1 stA0) stA0

/-- After alice deposits 1000. -/
def stA2 : State := deposit 1 1000 stA1

/-- Alice opens long, size 10, leverage 5, no brackets, at timestamp 7. -/
def resOpenA : Except DexError (PosId × State) := openPosition 1 7 10 5 true 0 0 stA2

/-- State after the Scenario A open. -/
def stA3 : State := stepState resOpenA stA2

/-- The id of the Scenario A position. -/
def pidA : PosId := (1, 7, 10)

/-- Scenario B: the admin moves the oracle price to 120. -/
def stB1 : State := stepState (updateOraclePrice 0 120 8 stA3) stA3

/-- Scenario B: alice closes the position. -/
def resCloseB : Except DexError (Unit × State) := closePosition 1 pidA stB1

/-- State after the Scenario B close. -/
def stB2 : State := stepState resCloseB stB1

/-- Liquidation trace for C1: from the Scenario A state (price still
100, the position is healthy), bob calls `liquidate` on alice's
position. -/
def resLiq : Except DexError (Unit × State) := liquidate 2 1 pidA stA3

/-- State after bob's liquidation call. -/
def stLiq : State := stepState resLiq stA3

/-- Scenario C trace: alice places a buy order (price 50, size 5)... -/
def stC1 : State := stepState (placeOrder 1 11 50 5 true (initialState 0)) (initialState 0)

/-- ... then bob places a sell order (price 40, size 5). -/
def resOrd2 : Except DexError (Nat × State) := placeOrder 2 12 40 5 false stC1

/-- State after the two Scenario C orders. -/
def stC2 : State := stepState resOrd2 stC1

/-- A healthy open mock position (the Scenario A numbers): size 10,
entry 100, collateral 200, oracle at 100 — net value 200·10000 is far
above the threshold 1000·500, so `checkLiquidation` is false. -/
def mposA : MockPosition :=
  { size := 10, entryPrice := 100, collateral := 200, leverage := 5, isLong := true,
    timestamp := 0, isOpen := true }

/-- Mock contract state holding `mposA` for alice (address 1). -/
def mstA : MockState :=
  { balances := fun _ => 0,
    positions := fun a i => if a = 1 ∧ i = (1, 0, 10) then mposA else MockPosition.zero,
    oraclePrice := 100, liquidationThreshold := 500, events := [] }

lemma M64_pos : 0 < M64 := Nat.pos_pow_of_pos 64 (by omega)

lemma add64_eq_of_lt {a b : Nat} (h : a + b < M64) : add64 a b = a + b := by
  simpa [add64] using Nat.mod_eq_of_lt h

lemma sub64_eq_of_le {a b : Nat} (hba : b ≤ a) (ha : a < M64) : sub64 a b = a - b := by
  have hb : b % M64 = b := Nat.mod_eq_of_lt (lt_of_le_of_lt hba ha)
  have ha' : a % M64 = a := Nat.mod_eq_of_lt ha
  unfold sub64
  rw [hb, ha']
  have h1 : a + (M64 - b) = (a - b) + M64 := by omega
  rw [h1, Nat.add_mod_right, Nat.mod_eq_of_lt (by omega)]

lemma mul64_eq_of_lt {a b : Nat} (h : a * b < M64) : mul64 a b = a * b := by
  simpa [mul64] using Nat.mod_eq_of_lt h

lemma div64_eq_of_lt {a d : Nat} (h : a < M64) : div64 a d = a / d := by
  simp [div64, Nat.mod_eq_of_lt h]

lemma natCast_mod_M64 (a : Nat) : ((a % M64 : Nat) : ZMod M64) = (a : ZMod M64) := by
  conv_rhs => rw [← Nat.div_add_mod a M64]
  push_cast
  simp [ZMod.natCast_self]

lemma sub64_cast (a b : Nat) : ((sub64 a b : Nat) : ZMod M64) = (a : ZMod M64) - b := by
  have hble : b % M64 ≤ M64 := le_of_lt (Nat.mod_lt _ M64_pos)
  unfold sub64
  rw [natCast_mod_M64]
  push_cast [Nat.cast_sub hble]
  rw [natCast_mod_M64, natCast_mod_M64]
  simp [ZMod.natCast_self]
  ring

lemma mul64_cast (a b : Nat) : ((mul64 a b : Nat) : ZMod M64) = (a : ZMod M64) * b := by
  unfold mul64
  rw [natCast_mod_M64]
  push_cast
  ring

/-- The PnL value `calculatePnL` returns on an open position. -/
def pnlValue (trader : Nat) (pid : PosId) (st : State) : Nat :=
  let pos := st.positions trader pid
  mul64 (if pos.isLong then sub64 st.oraclePrice pos.entryPrice
         else sub64 pos.entryPrice st.oraclePrice) pos.size

lemma calculatePnL_open (st : State) (trader : Nat) (pid : PosId)
    (h : (st.positions trader pid).isOpen = true) :
    calculatePnL trader pid st = Except.ok (pnlValue trader pid st) := by
  simp [calculatePnL, pnlValue, h]

lemma calculatePnL_closed (st : State) (trader : Nat) (pid : PosId)
    (h : (st.positions trader pid).isOpen = false) :
    calculatePnL trader pid st = Except.error DexError.positionNotOpen := by
  simp [calculatePnL, h]

/-- The state `closePosition` (and `executeStopLossTakeProfit`, which
performs the same mutation) produces from an open position. -/
def closedState (sender : Nat) (pid : PosId) (st : State) : State :=
  { st with
    balances := updFun st.balances sender
      (add64 (st.balances sender)
        (add64 (st.positions sender pid).collateral (pnlValue sender pid st))),
    positions := setPos st.positions sender pid
      { st.positions sender pid with isOpen := false },
    events := Event.positionClosed sender pid :: st.events }

/-- The state `liquidate` produces from an open position. -/
def liquidatedState (caller trader : Nat) (pid : PosId) (st : State) : State :=
  { st with
    positions := setPos st.positions trader pid
      { st.positions trader pid with isOpen := false },
    balances := updFun st.balances caller
      (add64 (st.balances caller) (div64 (st.positions trader pid).collateral 10)),
    events := Event.liquidationTriggered trader pid :: st.events }

lemma closePosition_open_eq (st : State) (sender : Nat) (pid : PosId)
    (h : (st.positions sender pid).isOpen = true) :
    closePosition sender pid st = Except.ok ((), closedState sender pid st) := by
  simp [closePosition, h, calculatePnL_open st sender pid h, closedState]

lemma closePosition_closed_eq (st : State) (sender : Nat) (pid : PosId)
    (h : (st.positions sender pid).isOpen = false) :
    closePosition sender pid st = Except.error DexError.positionNotOpen := by
  simp [closePosition, h]

lemma liquidate_open_eq (st : State) (caller trader : Nat) (pid : PosId)
    (h : (st.positions trader pid).isOpen = true) :
    liquidate caller trader pid st = Except.ok ((), liquidatedState caller trader pid st) := by
  simp [liquidate, h, liquidatedState]

lemma liquidate_closed_eq (st : State) (caller trader : Nat) (pid : PosId)
    (h : (st.positions trader pid).isOpen = false) :
    liquidate caller trader pid st = Except.error DexError.positionNotOpen := by
  simp [liquidate, h]

lemma executeStopLossTakeProfit_open_eq (st : State) (caller trader : Nat) (pid : PosId)
    (h : (st.positions trader pid).isOpen = true) :
    executeStopLossTakeProfit caller trader pid st =
      Except.ok ((), closedState trader pid st) := by
  simp [executeStopLossTakeProfit, checkStopLossTakeProfit, h,
        calculatePnL_open st trader pid h, closedState]

lemma executeStopLossTakeProfit_closed_eq (st : State) (caller trader : Nat) (pid : PosId)
    (h : (st.positions trader pid).isOpen = false) :
    executeStopLossTakeProfit caller trader pid st =
      Except.error DexError.positionNotOpen := by
  simp [executeStopLossTakeProfit, h]

lemma closedState_pos_closed (sender : Nat) (pid : PosId) (st : State) :
    ((closedState sender pid st).positions sender pid).isOpen = false := by
  simp [closedState, setPos]

lemma liquidatedState_pos_closed (caller trader : Nat) (pid : PosId) (st : State) :
    ((liquidatedState caller trader pid st).positions trader pid).isOpen = false := by
  simp [liquidatedState, setPos]

/-- Claim C5: on an open position, `closePosition` called by the owner
credits exactly collateral + calculatePnL to the owner's balance (in the
`euint64` algebra), sets `isOpen` to false and emits `PositionClosed`.
The Scenario A/B instance (oracle 120, credit 400, final balance 1200)
is checked in the witness. -/
theorem closePosition_correct (st : State) (owner : Nat) (pid : PosId)
    (hopen : (st.positions owner pid).isOpen = true) :
    ∃ st' pnl, calculatePnL owner pid st = Except.ok pnl ∧
      closePosition owner pid st = Except.ok ((), st') ∧
      st'.balances owner =
        add64 (st.balances owner) (add64 (st.positions owner pid).collateral pnl) ∧
      (st'.positions owner pid).isOpen = false ∧
      st'.events = Event.positionClosed owner pid :: st.events := by
  refine ⟨closedState owner pid st, pnlValue owner pid st,
    calculatePnL_open st owner pid hopen, closePosition_open_eq st owner pid hopen,
    ?_, closedState_pos_closed owner pid st, rfl⟩
  simp [closedState, updFun]

/-- Witness for C5: the Scenario A/B trace.  PnL = (120−100)·10 = 200,
credited amount = 200 + 200 = 400, final balance = 800 + 400 = 1200. -/
theorem closePosition_correct_witness :
    (stB1.positions 1 pidA).isOpen = true ∧
    (∃ st' pnl, calculatePnL 1 pidA stB1 = Except.ok pnl ∧
      closePosition 1 pidA stB1 = Except.ok ((), st') ∧
      st'.balances 1 = add64 (stB1.balances 1) (add64 (stB1.positions 1 pidA).collateral pnl) ∧
      (st'.positions 1 pidA).isOpen = false ∧
      st'.events = Event.positionClosed 1 pidA :: stB1.events) ∧
    calculatePnL 1 pidA stB1 = Except.ok 200 ∧
    add64 (stB1.positions 1 pidA).collateral 200 = 400 ∧
    stB2.balances 1 = 1200 ∧ (stB2.positions 1 pidA).isOpen = false :=
  ⟨rfl, closePosition_correct stB1 1 pidA rfl, rfl, rfl, rfl, rfl⟩

/-- Claim C7: `closePosition` on a position that is not open (absent or
already closed) reverts with the "Position not open" error — the spec's
`InvalidStateError` — and, reverts being modelled as `Except.error`
carrying no state, the ledger is untouched. -/
theorem closePosition_on_closed_fails (st : State) (sender : Nat) (pid : PosId)
    (h : (st.positions sender pid).isOpen = false) :
    closePosition sender pid st = Except.error DexError.positionNotOpen :=
  closePosition_closed_eq st sender pid h

/-- Witness for C7, Scenario D: the second `closePosition` on the
Scenario B position fails. -/
theorem closePosition_on_closed_fails_witness :
    closePosition 1 pidA stB1 = Except.ok ((), stB2) ∧
    (stB2.positions 1 pidA).isOpen = false ∧
    closePosition 1 pidA stB2 = Except.error DexError.positionNotOpen :=
  ⟨rfl, rfl, closePosition_on_closed_fails stB2 1 pidA rfl⟩

/-- Claim C10 (implicit): `executeStopLossTakeProfit` is callable by any
address; it computes the two confidential trigger booleans but the state
change does not depend on them: it unconditionally credits
collateral + calculatePnL to the *trader*, closes the position, emits the
generic `PositionClosed`, and the caller's balance is untouched (no
reward).  Nothing in the hypotheses constrains the brackets or the
oracle price, so the conclusion holds whatever the booleans are. -/
theorem executeStopLossTakeProfit_unconditional (st : State) (caller trader : Nat)
    (pid : PosId) (hopen : (st.positions trader pid).isOpen = true) :
    ∃ st' pnl b1 b2,
      checkStopLossTakeProfit trader pid st = Except.ok (b1, b2) ∧
      calculatePnL trader pid st = Except.ok pnl ∧
      executeStopLossTakeProfit caller trader pid st = Except.ok ((), st') ∧
      st'.balances trader =
        add64 (st.balances trader) (add64 (st.positions trader pid).collateral pnl) ∧
      (st'.positions trader pid).isOpen = false ∧
      st'.events = Event.positionClosed trader pid :: st.events ∧
      (caller ≠ trader → st'.balances caller = st.balances caller) := by
  refine ⟨closedState trader pid st, pnlValue trader pid st,
    (if (st.positions trader pid).isLong then lt64 st.oraclePrice (st.positions trader pid).stopLoss
     else lt64 (st.positions trader pid).stopLoss st.oraclePrice),
    (if (st.positions trader pid).isLong then lt64 (st.positions trader pid).takeProfit st.oraclePrice
     else lt64 st.oraclePrice (st.positions trader pid).takeProfit),
    ?_, calculatePnL_open st trader pid hopen,
    executeStopLossTakeProfit_open_eq st caller trader pid hopen, ?_,
    closedState_pos_closed trader pid st, rfl, ?_⟩
  · simp [checkStopLossTakeProfit, hopen]
  · simp [closedState, updFun]
  · intro hne
    simp [closedState, updFun, hne]

/-- Witness for C10: bob (address 2) executes the brackets of alice's
Scenario A position; alice is credited 800 + (200 + 0) = 1000, bob gets
nothing. -/
theorem executeStopLossTakeProfit_unconditional_witness :
    (stA3.positions 1 pidA).isOpen = true ∧
    (∃ st' pnl b1 b2,
      checkStopLossTakeProfit 1 pidA stA3 = Except.ok (b1, b2) ∧
      calculatePnL 1 pidA stA3 = Except.ok pnl ∧
      executeStopLossTakeProfit 2 1 pidA stA3 = Except.ok ((), st') ∧
      st'.balances 1 = add64 (stA3.balances 1) (add64 (stA3.positions 1 pidA).collateral pnl) ∧
      (st'.positions 1 pidA).isOpen = false ∧
      st'.events = Event.positionClosed 1 pidA :: stA3.events ∧
      ((2 : Nat) ≠ 1 → st'.balances 2 = stA3.balances 2)) :=
  ⟨rfl, executeStopLossTakeProfit_unconditional stA3 2 1 pidA rfl⟩

/-- Claim C3, amended: in the confidential contract, `liquidate` neither
computes nor checks the liquidatability predicate (`checkLiquidation` is
a separate view the function never consults): for every open position and
every caller it closes the position and credits the caller collateral/10.
In the mock contract, `liquidate` additionally requires
`checkLiquidation` to be true and reverts otherwise (see the
counterexample). -/
theorem liquidate_unconditional (st : State) (caller trader : Nat) (pid : PosId)
    (hopen : (st.positions trader pid).isOpen = true) :
    ∃ st', liquidate caller trader pid st = Except.ok ((), st') ∧
      (st'.positions trader pid).isOpen = false ∧
      st'.balances caller =
        add64 (st.balances caller) (div64 (st.positions trader pid).collateral 10) ∧
      st'.events = Event.liquidationTriggered trader pid :: st.events := by
  refine ⟨liquidatedState caller trader pid st,
    liquidate_open_eq st caller trader pid hopen,
    liquidatedState_pos_closed caller trader pid st, ?_, rfl⟩
  simp [liquidatedState, updFun]

/-- Witness for the amended C3: bob liquidates alice's healthy Scenario A
position; the liquidatability predicate is false, yet liquidation
succeeds and bob is paid 200/10 = 20. -/
theorem liquidate_unconditional_witness :
    (stA3.positions 1 pidA).isOpen = true ∧
    checkLiquidation 1 pidA stA3 = Except.ok false ∧
    (∃ st', liquidate 2 1 pidA stA3 = Except.ok ((), st') ∧
      (st'.positions 1 pidA).isOpen = false ∧
      st'.balances 2 = add64 (stA3.balances 2) (div64 (stA3.positions 1 pidA).collateral 10) ∧
      st'.events = Event.liquidationTriggered 1 pidA :: stA3.events) ∧
    stLiq.balances 2 = 20 :=
  ⟨rfl, rfl, liquidate_unconditional stA3 2 1 pidA rfl, rfl⟩

/-- Counterexample to C3 as stated: in the mock contract (cited by the
claim), `liquidate` on an open but healthy position does *not* close it
or pay the caller — it reverts with "Position not liquidatable".  The
position `mposA` (size 10, entry 100, collateral 200, oracle 100) is
open, its predicate is false, and the call errors. -/
theorem mockLiquidate_healthy_reverts :
    (mstA.positions 1 (1, 0, 10)).isOpen = true ∧
    mockCheckLiquidation 1 (1, 0, 10) mstA = Except.ok false ∧
    mockLiquidate 2 1 (1, 0, 10) mstA = Except.error DexError.notLiquidatable :=
  ⟨rfl, rfl, rfl⟩

/-- Claim C8: position terminality.  Once `isOpen = false`, every
`closePosition`, `liquidate` and `executeStopLossTakeProfit` on that id
reverts with the "Position not open" error; and on an open position, of
two successive `liquidate` calls exactly the first succeeds. -/
theorem position_terminality (st : State) (caller trader : Nat) (pid : PosId) :
    ((st.positions trader pid).isOpen = false →
      closePosition trader pid st = Except.error DexError.positionNotOpen ∧
      liquidate caller trader pid st = Except.error DexError.positionNotOpen ∧
      executeStopLossTakeProfit caller trader pid st =
        Except.error DexError.positionNotOpen) ∧
    ((st.positions trader pid).isOpen = true →
      ∃ st', liquidate caller trader pid st = Except.ok ((), st') ∧
        liquidate caller trader pid st' = Except.error DexError.positionNotOpen) := by
  constructor
  · intro h
    exact ⟨closePosition_closed_eq st trader pid h,
      liquidate_closed_eq st caller trader pid h,
      executeStopLossTakeProfit_closed_eq st caller trader pid h⟩
  · intro h
    refine ⟨liquidatedState caller trader pid st,
      liquidate_open_eq st caller trader pid h, ?_⟩
    exact liquidate_closed_eq _ caller trader pid
      (liquidatedState_pos_closed caller trader pid st)

/-- Witness for C8: the liquidated Scenario A position rejects all three
entry points, and the liquidate-twice race on the open position has
exactly one winner. -/
theorem position_terminality_witness :
    (stLiq.positions 1 pidA).isOpen = false ∧
    (closePosition 1 pidA stLiq = Except.error DexError.positionNotOpen ∧
     liquidate 2 1 pidA stLiq = Except.error DexError.positionNotOpen ∧
     executeStopLossTakeProfit 2 1 pidA stLiq = Except.error DexError.positionNotOpen) ∧
    (stA3.positions 1 pidA).isOpen = true ∧
    (∃ st', liquidate 2 1 pidA stA3 = Except.ok ((), st') ∧
      liquidate 2 1 pidA st' = Except.error DexError.positionNotOpen) :=
  ⟨rfl, (position_terminality stLiq 2 1 pidA).1 rfl, rfl,
   (position_terminality stA3 2 1 pidA).2 rfl⟩

/-- Claim C9, amended: there is no owner check and no unauthorized error
in `updateStopLossTakeProfit` — positions are keyed by `msg.sender`, so
a caller whose own slot at this id is not open (in particular any
non-owner, who can never have the owner's id in their own map) gets the
"Position not open" revert, the spec's `InvalidStateError`, with no
mutation; the owner of an open position overwrites both brackets and the
event is emitted. -/
theorem updateStopLossTakeProfit_spec :
    (∀ (st : State) (caller : Nat) (pid : PosId) (sl tp : Nat),
        (st.positions caller pid).isOpen = false →
        updateStopLossTakeProfit caller pid sl tp st =
          Except.error DexError.positionNotOpen) ∧
    (∀ (st : State) (owner : Nat) (pid : PosId) (sl tp : Nat),
        (st.positions owner pid).isOpen = true →
        ∃ st', updateStopLossTakeProfit owner pid sl tp st = Except.ok ((), st') ∧
          (st'.positions owner pid).stopLoss = sl % M64 ∧
          (st'.positions owner pid).takeProfit = tp % M64 ∧
          (st'.positions owner pid).isOpen = true ∧
          st'.balances = st.balances ∧
          st'.events = Event.stopLossTakeProfitUpdated owner pid :: st.events) := by
  constructor
  · intro st caller pid sl tp h
    simp [updateStopLossTakeProfit, h]
  · intro st owner pid sl tp h
    refine ⟨{ st with
      positions := setPos st.positions owner pid
        { st.positions owner pid with stopLoss := sl % M64, takeProfit := tp % M64 },
      events := Event.stopLossTakeProfitUpdated owner pid :: st.events },
      ?_, ?_, ?_, ?_, rfl, rfl⟩
    · simp [updateStopLossTakeProfit, h]
    · simp [setPos]
    · simp [setPos]
    · simp [setPos, h]

/-- Witness for the amended C9: bob's call on alice's open position
fails with the state error; alice's own call overwrites the brackets. -/
theorem updateStopLossTakeProfit_spec_witness :
    ((stA3.positions 2 pidA).isOpen = false ∧
      updateStopLossTakeProfit 2 pidA 55 66 stA3 = Except.error DexError.positionNotOpen) ∧
    ((stA3.positions 1 pidA).isOpen = true ∧
      ∃ st', updateStopLossTakeProfit 1 pidA 55 66 stA3 = Except.ok ((), st') ∧
        (st'.positions 1 pidA).stopLoss = 55 % M64 ∧
        (st'.positions 1 pidA).takeProfit = 66 % M64 ∧
        (st'.positions 1 pidA).isOpen = true ∧
        st'.balances = stA3.balances ∧
        st'.events = Event.stopLossTakeProfitUpdated 1 pidA :: stA3.events) :=
  ⟨⟨rfl, updateStopLossTakeProfit_spec.1 stA3 2 pidA 55 66 rfl⟩,
   ⟨rfl, updateStopLossTakeProfit_spec.2 stA3 1 pidA 55 66 rfl⟩⟩

/-- Counterexample to C9 as stated: a non-owner call does fail with no
mutation, but with the "Position not open" revert (`InvalidStateError`),
not with an unauthorized error — the contract's only unauthorized revert
("Only admin") lives on `updateOraclePrice`. -/
theorem updateStopLossTakeProfit_nonowner_error :
    (stA3.positions 1 pidA).isOpen = true ∧ (2 : Nat) ≠ 1 ∧
    updateStopLossTakeProfit 2 pidA 55 66 stA3 = Except.error DexError.positionNotOpen ∧
    DexError.positionNotOpen ≠ DexError.onlyAdmin :=
  ⟨rfl, by decide, rfl, by decide⟩

/-- Claim C1, amended: the collateral debited at `openPosition` is
credited back (with PnL) to the owner at most once, and only via
`closePosition` (or the identical bracket-execution mutation) — never at
liquidation.  On the close path the owner is credited collateral + pnl
and the position becomes terminal, so liquidation (and a second close)
then reverts; on the liquidation path the owner's balance is untouched
(only the caller earns collateral/10) and the position becomes terminal,
so the close-path credit can never happen afterwards.  The two paths are
mutually exclusive. -/
theorem collateral_credited_once (st : State) (caller trader : Nat) (pid : PosId)
    (hopen : (st.positions trader pid).isOpen = true) :
    (∃ stC pnl, calculatePnL trader pid st = Except.ok pnl ∧
      closePosition trader pid st = Except.ok ((), stC) ∧
      stC.balances trader =
        add64 (st.balances trader) (add64 (st.positions trader pid).collateral pnl) ∧
      closePosition trader pid stC = Except.error DexError.positionNotOpen ∧
      liquidate caller trader pid stC = Except.error DexError.positionNotOpen) ∧
    (∃ stL, liquidate caller trader pid st = Except.ok ((), stL) ∧
      (caller ≠ trader → stL.balances trader = st.balances trader) ∧
      stL.balances caller =
        add64 (st.balances caller) (div64 (st.positions trader pid).collateral 10) ∧
      closePosition trader pid stL = Except.error DexError.positionNotOpen ∧
      liquidate caller trader pid stL = Except.error DexError.positionNotOpen) := by
  constructor
  · refine ⟨closedState trader pid st, pnlValue trader pid st,
      calculatePnL_open st trader pid hopen,
      closePosition_open_eq st trader pid hopen, ?_,
      closePosition_closed_eq _ trader pid (closedState_pos_closed trader pid st),
      liquidate_closed_eq _ caller trader pid (closedState_pos_closed trader pid st)⟩
    simp [closedState, updFun]
  · refine ⟨liquidatedState caller trader pid st,
      liquidate_open_eq st caller trader pid hopen, ?_, ?_,
      closePosition_closed_eq _ trader pid (liquidatedState_pos_closed caller trader pid st),
      liquidate_closed_eq _ caller trader pid (liquidatedState_pos_closed caller trader pid st)⟩
    · intro hne
      simp [liquidatedState, updFun, Ne.symm hne]
    · simp [liquidatedState, updFun]

/-- Witness for the amended C1: on the Scenario A position, both the
close path and the liquidation path behave as stated. -/
theorem collateral_credited_once_witness :
    (stA3.positions 1 pidA).isOpen = true ∧
    ((∃ stC pnl, calculatePnL 1 pidA stA3 = Except.ok pnl ∧
      closePosition 1 pidA stA3 = Except.ok ((), stC) ∧
      stC.balances 1 = add64 (stA3.balances 1) (add64 (stA3.positions 1 pidA).collateral pnl) ∧
      closePosition 1 pidA stC = Except.error DexError.positionNotOpen ∧
      liquidate 2 1 pidA stC = Except.error DexError.positionNotOpen) ∧
    (∃ stL, liquidate 2 1 pidA stA3 = Except.ok ((), stL) ∧
      ((2 : Nat) ≠ 1 → stL.balances 1 = stA3.balances 1) ∧
      stL.balances 2 = add64 (stA3.balances 2) (div64 (stA3.positions 1 pidA).collateral 10) ∧
      closePosition 1 pidA stL = Except.error DexError.positionNotOpen ∧
      liquidate 2 1 pidA stL = Except.error DexError.positionNotOpen)) :=
  ⟨rfl, collateral_credited_once stA3 2 1 pidA rfl⟩

/-- Counterexample to C1 as stated: bob liquidates alice's open position
(collateral 200, alice's balance 800).  Alice — the owner — receives no
credit on the liquidation path: her balance is unchanged at 800, only bob
is paid 20, and the position is closed so the credit can never arrive via
`closePosition` either.  This refutes "a liquidated position's owner
receives the credit on the liquidation path". -/
theorem liquidation_pays_owner_nothing :
    (stA3.positions 1 pidA).isOpen = true ∧
    (stA3.positions 1 pidA).collateral = 200 ∧
    stA3.balances 1 = 800 ∧
    liquidate 2 1 pidA stA3 = Except.ok ((), stLiq) ∧
    stLiq.balances 1 = 800 ∧
    stLiq.balances 2 = 20 ∧
    (stLiq.positions 1 pidA).isOpen = false ∧
    closePosition 1 pidA stLiq = Except.error DexError.positionNotOpen :=
  ⟨rfl, rfl, rfl, rfl, rfl, rfl, rfl, rfl⟩

/-- Claim C4: on an open position, `calculatePnL` returns
(oraclePrice − entryPrice)·size for long and (entryPrice − oraclePrice)·size
for short — exactly in the `euint64` ring `ZMod 2^64` (where the
contract's `TFHE.sub`/`TFHE.mul` live), and as plain integers whenever
the subtraction does not underflow and the product does not overflow.
It is a function of the current oracle price and the stored position
fields alone, and (being `State → Except DexError Nat` with no output
state) mutates nothing. -/
theorem calculatePnL_formula (st : State) (trader : Nat) (pid : PosId)
    (hopen : (st.positions trader pid).isOpen = true)
    (hp : st.oraclePrice < M64)
    (he : (st.positions trader pid).entryPrice < M64) :
    ∃ v, calculatePnL trader pid st = Except.ok v ∧ v < M64 ∧
      ((v : ZMod M64) =
        (if (st.positions trader pid).isLong then
          ((st.oraclePrice : ZMod M64) - ((st.positions trader pid).entryPrice : ZMod M64))
         else
          (((st.positions trader pid).entryPrice : ZMod M64) - (st.oraclePrice : ZMod M64)))
        * ((st.positions trader pid).size : ZMod M64)) ∧
      ((st.positions trader pid).isLong = true →
        (st.positions trader pid).entryPrice ≤ st.oraclePrice →
        (st.oraclePrice - (st.positions trader pid).entryPrice) *
          (st.positions trader pid).size < M64 →
        v = (st.oraclePrice - (st.positions trader pid).entryPrice) *
          (st.positions trader pid).size) ∧
      ((st.positions trader pid).isLong = false →
        st.oraclePrice ≤ (st.positions trader pid).entryPrice →
        ((st.positions trader pid).entryPrice - st.oraclePrice) *
          (st.positions trader pid).size < M64 →
        v = ((st.positions trader pid).entryPrice - st.oraclePrice) *
          (st.positions trader pid).size) ∧
      (∀ st2 : State, st2.oraclePrice = st.oraclePrice →
        st2.positions trader pid = st.positions trader pid →
        calculatePnL trader pid st2 = calculatePnL trader pid st) := by
  refine ⟨pnlValue trader pid st, calculatePnL_open st trader pid hopen, ?_, ?_, ?_, ?_, ?_⟩
  · exact Nat.mod_lt _ M64_pos
  · by_cases hl : (st.positions trader pid).isLong
    · simp only [pnlValue, hl, if_true, mul64_cast, sub64_cast]
    · simp only [pnlValue, hl, if_false, Bool.false_eq_true, mul64_cast, sub64_cast]
  · intro hl hle hov
    simp only [pnlValue, hl, if_true]
    rw [sub64_eq_of_le hle hp, mul64_eq_of_lt hov]
  · intro hl hle hov
    simp only [pnlValue, hl, Bool.false_eq_true, if_false]
    rw [sub64_eq_of_le hle he, mul64_eq_of_lt hov]
  · intro st2 h1 h2
    simp [calculatePnL, h1, h2]

/-- Witness for C4: the Scenario B state — long position, entry 100,
oracle 120, size 10 — gives PnL exactly (120 − 100)·10 = 200. -/
theorem calculatePnL_formula_witness :
    (stB1.positions 1 pidA).isOpen = true ∧
    (∃ v, calculatePnL 1 pidA stB1 = Except.ok v ∧ v < M64 ∧
      ((v : ZMod M64) =
        (if (stB1.positions 1 pidA).isLong then
          ((stB1.oraclePrice : ZMod M64) - ((stB1.positions 1 pidA).entryPrice : ZMod M64))
         else
          (((stB1.positions 1 pidA).entryPrice : ZMod M64) - (stB1.oraclePrice : ZMod M64)))
        * ((stB1.positions 1 pidA).size : ZMod M64)) ∧
      ((stB1.positions 1 pidA).isLong = true →
        (stB1.positions 1 pidA).entryPrice ≤ stB1.oraclePrice →
        (stB1.oraclePrice - (stB1.positions 1 pidA).entryPrice) *
          (stB1.positions 1 pidA).size < M64 →
        v = (stB1.oraclePrice - (stB1.positions 1 pidA).entryPrice) *
          (stB1.positions 1 pidA).size) ∧
      ((stB1.positions 1 pidA).isLong = false →
        stB1.oraclePrice ≤ (stB1.positions 1 pidA).entryPrice →
        ((stB1.positions 1 pidA).entryPrice - stB1.oraclePrice) *
          (stB1.positions 1 pidA).size < M64 →
        v = ((stB1.positions 1 pidA).entryPrice - stB1.oraclePrice) *
          (stB1.positions 1 pidA).size) ∧
      (∀ st2 : State, st2.oraclePrice = stB1.oraclePrice →
        st2.positions 1 pidA = stB1.positions 1 pidA →
        calculatePnL 1 pidA st2 = calculatePnL 1 pidA stB1)) ∧
    calculatePnL 1 pidA stB1 = Except.ok 200 :=
  ⟨rfl, calculatePnL_formula stB1 1 pidA rfl (by decide) (by decide), rfl⟩

/-- Claim C6: `openPosition` with size s, leverage L > 0 and oracle
price p computes positionValue = s·p and requiredCollateral = s·p / L,
debits the caller's balance by exactly that collateral, stores a new open
position whose entryPrice is the oracle price at open time and whose
collateral equals requiredCollateral, and returns the (content-derived)
id.  The bounds hypotheses say the 64-bit arithmetic does not wrap, and
the balance covers the collateral (the FHE contract performs no balance
check of its own). -/
theorem openPosition_spec (st : State) (sender ts size lev : Nat) (isLong : Bool)
    (sl tp : Nat) (hlev : 0 < lev) (hlev2 : lev < 256) (hsz : size < M64)
    (hmul : size * st.oraclePrice < M64) (hbal : st.balances sender < M64)
    (hge : size * st.oraclePrice / lev ≤ st.balances sender) :
    ∃ pid st', openPosition sender ts size lev isLong sl tp st = Except.ok (pid, st') ∧
      pid = (sender, ts, size) ∧
      st'.balances sender = st.balances sender - size * st.oraclePrice / lev ∧
      (st'.positions sender pid).collateral = size * st.oraclePrice / lev ∧
      (st'.positions sender pid).entryPrice = st.oraclePrice ∧
      (st'.positions sender pid).isOpen = true ∧
      (st'.positions sender pid).size = size ∧
      (st'.positions sender pid).leverage = lev ∧
      (st'.positions sender pid).isLong = isLong ∧
      st'.events = Event.positionOpened sender pid isLong :: st.events := by
  have hsz' : size % M64 = size := Nat.mod_eq_of_lt hsz
  have hlev' : lev % 256 = lev := Nat.mod_eq_of_lt hlev2
  have hrc : div64 (mul64 (size % M64) st.oraclePrice) (lev % 256) =
      size * st.oraclePrice / lev := by
    rw [hsz', hlev', mul64_eq_of_lt hmul, div64_eq_of_lt hmul]
  refine ⟨_, _, rfl, ?_, ?_, ?_, ?_, ?_, ?_, ?_, ?_, ?_⟩
  · simp [hsz']
  · simp only [updFun, if_pos rfl, hrc]
    exact sub64_eq_of_le hge hbal
  · simp [setPos, hrc]
  · simp [setPos]
  · simp [setPos]
  · simp [setPos, hsz']
  · simp [setPos, hlev']
  · simp [setPos]
  · rfl

/-- Witness for C6, Scenario A: deposit 1000, open size 10 at leverage 5
with oracle price 100 — collateral (10·100)/5 = 200 locked, balance
1000 − 200 = 800. -/
theorem openPosition_spec_witness :
    stA2.balances 1 = 1000 ∧ stA2.oraclePrice = 100 ∧
    (∃ pid st', openPosition 1 7 10 5 true 0 0 stA2 = Except.ok (pid, st') ∧
      pid = (1, 7, 10) ∧
      st'.balances 1 = stA2.balances 1 - 10 * stA2.oraclePrice / 5 ∧
      (st'.positions 1 pid).collateral = 10 * stA2.oraclePrice / 5 ∧
      (st'.positions 1 pid).entryPrice = stA2.oraclePrice ∧
      (st'.positions 1 pid).isOpen = true ∧
      (st'.positions 1 pid).size = 10 ∧
      (st'.positions 1 pid).leverage = 5 ∧
      (st'.positions 1 pid).isLong = true ∧
      st'.events = Event.positionOpened 1 pid true :: stA2.events) ∧
    stA3.balances 1 = 800 ∧ (stA3.positions 1 pidA).collateral = 200 :=
  ⟨rfl, rfl,
   openPosition_spec stA2 1 7 10 5 true 0 0 (by decide) (by decide) (by decide)
     (by decide) (by decide) (by decide),
   rfl, rfl⟩

lemma getO_append_lt (l : List Order) (o : Order) (i : Nat) (h : i < l.length) :
    getO (l ++ [o]) i = getO l i := by
  simp [getO, List.get?_eq_getElem?, List.getElem?_append_left h]

lemma getO_append_len (l : List Order) (o : Order) : getO (l ++ [o]) l.length = o := by
  simp [getO, List.get?_eq_getElem?, List.getElem?_concat_length]

lemma getO_set_self (l : List Order) (i : Nat) (a : Order) (h : i < l.length) :
    getO (l.set i a) i = a := by
  simp [getO, List.get?_eq_getElem?, List.getElem?_set_eq_of_lt a h]

lemma getO_set_ne (l : List Order) (i j : Nat) (a : Order) (h : i ≠ j) :
    getO (l.set i a) j = getO l j := by
  simp [getO, List.get?_eq_getElem?, List.getElem?_set_ne h]

/-- The loop conditions under which `_matchOrders` skips index `i` and
moves on. -/
def skips (ob : List Order) (newId i : Nat) : Prop :=
  i = newId ∨ (getO ob i).isLong = (getO ob newId).isLong ∨
    (getO ob i).isFilled = true ∨ (getO ob newId).isFilled = true

lemma matchScan_skip (newId i : Nat) (rest : List Nat) (st : State)
    (h : skips st.orderBook newId i) :
    matchScan newId (i :: rest) st = matchScan newId rest st := by
  unfold skips at h
  by_cases h1 : i = newId
  · simp [matchScan, h1]
  · rcases h with h' | h' | h' | h'
    · exact absurd h' h1
    · simp [matchScan, h1, h']
    · simp [matchScan, h1, h']
    · simp [matchScan, h1, h']

lemma matchScan_hit (newId j : Nat) (rest : List Nat) (st : State)
    (h1 : j ≠ newId)
    (h2 : ((getO st.orderBook j).isLong == (getO st.orderBook newId).isLong) = false)
    (h3 : (getO st.orderBook j).isFilled = false)
    (h4 : (getO st.orderBook newId).isFilled = false) :
    matchScan newId (j :: rest) st = fillMatch newId j st := by
  simp [matchScan, h1, h2, h3, h4]

lemma matchScan_finds (newId : Nat) :
    ∀ (len s : Nat) (st : State) (j : Nat),
      s ≤ j → j < s + len →
      (∀ i, s ≤ i → i < j → skips st.orderBook newId i) →
      j ≠ newId →
      ((getO st.orderBook j).isLong == (getO st.orderBook newId).isLong) = false →
      (getO st.orderBook j).isFilled = false →
      (getO st.orderBook newId).isFilled = false →
      matchScan newId (idxs s len) st = fillMatch newId j st := by
  intro len
  induction len with
  | zero =>
    intro s st j hsj hlt _ _ _ _ _
    exact absurd hlt (by omega)
  | succ n ih =>
    intro s st j hsj hlt hskip hne hopp hjf hnf
    by_cases hq : s = j
    · subst hq
      exact matchScan_hit newId s (idxs (s + 1) n) st hne hopp hjf hnf
    · have hlt' : s < j := lt_of_le_of_ne hsj hq
      have hstep : matchScan newId (s :: idxs (s + 1) n) st =
          matchScan newId (idxs (s + 1) n) st :=
        matchScan_skip newId s _ st (hskip s le_rfl hlt')
      calc matchScan newId (idxs s (n + 1)) st
          = matchScan newId (idxs (s + 1) n) st := hstep
        _ = fillMatch newId j st :=
            ih (s + 1) st j (by omega) (by omega)
              (fun i hi1 hi2 => hskip i (by omega) hi2) hne hopp hjf hnf

/-- `_matchOrders` run on the id of the just-appended order: if `j` is the
first index that passes all the skip checks, both orders get filled. -/
lemma matchOrders_fills (st1 : State) (j : Nat)
    (hj : j < st1.orderBook.length - 1)
    (hopp : ((getO st1.orderBook j).isLong ==
      (getO st1.orderBook (st1.orderBook.length - 1)).isLong) = false)
    (hjf : (getO st1.orderBook j).isFilled = false)
    (hnf : (getO st1.orderBook (st1.orderBook.length - 1)).isFilled = false)
    (hfirst : ∀ i, i < j → skips st1.orderBook (st1.orderBook.length - 1) i) :
    matchOrders (st1.orderBook.length - 1) st1 =
      fillMatch (st1.orderBook.length - 1) j st1 := by
  unfold matchOrders
  exact matchScan_finds _ _ 0 st1 j (Nat.zero_le j) (by omega)
    (fun i _ hi => hfirst i hi) (by omega) hopp hjf hnf

/-- Claim C2: `placeOrder` appends the new order and the matching pass
scans the book in index order; at the first unfilled opposite-side order
it marks both that order and the new one filled, *whatever the prices
are* — the price-compatibility `ebool` cannot gate the match and does
not appear in any hypothesis here.  The returned id is the old book
length, and the book grows by exactly one.  Scenario C (buy at 50 then
sell at 40, both filled, book size 2) is the witness. -/
theorem placeOrder_fills_first_opposite (st : State) (sender ts price size : Nat)
    (isLong : Bool) (j : Nat)
    (hj : j < st.orderBook.length)
    (hopp : (getO st.orderBook j).isLong = !isLong)
    (hunf : (getO st.orderBook j).isFilled = false)
    (hfirst : ∀ i, i < j → (getO st.orderBook i).isLong = isLong ∨
      (getO st.orderBook i).isFilled = true) :
    ∃ st', placeOrder sender ts price size isLong st =
        Except.ok (st.orderBook.length, st') ∧
      st'.orderBook.length = st.orderBook.length + 1 ∧
      (getO st'.orderBook j).isFilled = true ∧
      (getO st'.orderBook st.orderBook.length).isFilled = true ∧
      st'.events = Event.orderMatched st.orderBook.length j ::
        Event.orderPlaced sender st.orderBook.length isLong :: st.events := by
  set newOrd : Order :=
    { price := price % M64, size := size % M64, trader := sender, isLong := isLong,
      isFilled := false, timestamp := ts } with hnew
  set ob1 : List Order := st.orderBook ++ [newOrd] with hob1
  have hlen : ob1.length = st.orderBook.length + 1 := by
    simp [hob1]
  have hid : ob1.length - 1 = st.orderBook.length := by omega
  set st1 : State := { st with
    orderBook := ob1,
    events := Event.orderPlaced sender (ob1.length - 1) isLong :: st.events } with hst1
  have hplace : placeOrder sender ts price size isLong st =
      Except.ok (ob1.length - 1, matchOrders (ob1.length - 1) st1) := rfl
  have hnewAt : getO ob1 st.orderBook.length = newOrd := getO_append_len _ _
  have hjAt : getO ob1 j = getO st.orderBook j := getO_append_lt _ _ j hj
  have hOB : st1.orderBook = ob1 := rfl
  have hoppB : ((getO ob1 j).isLong == (getO ob1 (ob1.length - 1)).isLong) = false := by
    rw [hid, hjAt, hnewAt, hopp, hnew]
    cases isLong <;> rfl
  have hjF : (getO ob1 j).isFilled = false := by rw [hjAt]; exact hunf
  have hnF : (getO ob1 (ob1.length - 1)).isFilled = false := by
    rw [hid, hnewAt, hnew]
  have hfirstB : ∀ i, i < j → skips ob1 (ob1.length - 1) i := by
    intro i hi
    have hilt : i < st.orderBook.length := lt_trans hi hj
    have hiAt : getO ob1 i = getO st.orderBook i := getO_append_lt _ _ i hilt
    rcases hfirst i hi with h' | h'
    · right; left
      rw [hiAt, h', hid, hnewAt, hnew]
    · right; right; left
      rw [hiAt]; exact h'
  have hm : matchOrders (ob1.length - 1) st1 = fillMatch (ob1.length - 1) j st1 :=
    matchOrders_fills st1 j (by rw [hOB]; omega) (by rw [hOB]; exact hoppB)
      (by rw [hOB]; exact hjF) (by rw [hOB]; exact hnF)
      (fun i hi => by rw [hOB]; exact hfirstB i hi)
  have hjne : (ob1.length - 1) ≠ j := by omega
  have hjlt1 : j < ob1.length := by omega
  have hfillOB : (fillMatch (ob1.length - 1) j st1).orderBook =
      (ob1.set j { getO ob1 j with isFilled := true }).set (ob1.length - 1)
        { getO ob1 (ob1.length - 1) with isFilled := true } := rfl
  refine ⟨fillMatch (ob1.length - 1) j st1, ?_, ?_, ?_, ?_, ?_⟩
  · rw [hplace, hm, hid]
  · rw [hfillOB]
    simp [List.length_set, hlen]
  · rw [hfillOB, getO_set_ne _ _ _ _ hjne,
      getO_set_self _ _ _ (by simpa [List.length_set] using hjlt1)]
  · rw [← hid, hfillOB,
      getO_set_self _ _ _ (by simp [List.length_set]; omega)]
  · show Event.orderMatched (ob1.length - 1) j :: st1.events =
      Event.orderMatched st.orderBook.length j ::
        Event.orderPlaced sender st.orderBook.length isLong :: st.events
    rw [hid]
    simp [hst1, hid]

/-- Witness for C2, Scenario C: a buy order (price 50, size 5) then a
sell order (price 40, size 5) — the matcher fills both (here the sell at
40 against the buy at 50, found first in scan order) and
`getOrderBookSize` is 2. -/
theorem placeOrder_fills_first_opposite_witness :
    (0 < stC1.orderBook.length ∧
     (getO stC1.orderBook 0).isLong = !false ∧
     (getO stC1.orderBook 0).isFilled = false) ∧
    (∃ st', placeOrder 2 12 40 5 false stC1 = Except.ok (stC1.orderBook.length, st') ∧
      st'.orderBook.length = stC1.orderBook.length + 1 ∧
      (getO st'.orderBook 0).isFilled = true ∧
      (getO st'.orderBook stC1.orderBook.length).isFilled = true ∧
      st'.events = Event.orderMatched stC1.orderBook.length 0 ::
        Event.orderPlaced 2 stC1.orderBook.length false :: stC1.events) ∧
    getOrderBookSize stC2 = 2 ∧
    (getO stC2.orderBook 0).isFilled = true ∧
    (getO stC2.orderBook 1).isFilled = true :=
  ⟨⟨by decide, rfl, rfl⟩,
   placeOrder_fills_first_opposite stC1 2 12 40 5 false 0 (by decide) rfl rfl
     (fun i hi => absurd hi (Nat.not_lt_zero i)),
   rfl, rfl, rfl⟩
